import Mathlib

/-!
Shallow embedding of `src/script.js` (USA Tax Calculator 2025).

JavaScript numbers are modelled by `ℚ` (the computations of interest are
exact decimal arithmetic); the special values `NaN`, `Infinity` and
`-Infinity` that can come out of `Number(v)` on raw user input are modelled
by the type `JsNum`, which the input-reading helper `n` reduces to `ℚ`.
The unbounded upper edge `to: Infinity` of the top bracket is modelled by
`Option ℚ` with `none` standing for `+∞`, so that `Math.min(x, Infinity) = x`
becomes `minTo x none = x`.
-/

namespace TaxCalc

/-- Result of JavaScript `Number(v)` on a raw input value: either a finite
number or one of the non-finite values `NaN` / `Infinity` / `-Infinity`. -/
inductive JsNum where
  | finite (q : ℚ)
  | nan
  | posInf
  | negInf
deriving DecidableEq

/-- JavaScript `Number.isFinite`. -/
def JsNum.isFinite : JsNum → Bool
  | .finite _ => true
  | _ => false

/-- `function n(v)` (script.js line 39): coerce an input to a number,
replacing any non-finite conversion result by `0`. -/
def n (v : JsNum) : ℚ :=
  match v with
  | .finite q => q
  | _ => 0

/-- `function clampNonNeg(v)` (script.js line 44): `Math.max(v, 0)`. -/
def clampNonNeg (v : ℚ) : ℚ := max v 0

/-- The filing statuses of the `status` select element. -/
inductive FilingStatus where
  | single
  | mfj
  | hoh
  | mfs
deriving DecidableEq

/-- `STD_DEDUCTION_2025` (script.js line 7): all four keys are populated,
so the `?? STD_DEDUCTION_2025.single` fallback in `calculate` is
unreachable and the table is a total lookup. -/
def STD_DEDUCTION_2025 : FilingStatus → ℚ
  | .single => 15750
  | .mfs => 15750
  | .mfj => 31500
  | .hoh => 23625

/-- One rate band of a bracket table.  The source fields `from` and `to`
are Lean keywords and are rendered as `lo` and `upTo`; `upTo` is
`Option ℚ` with `none` for the source's `Infinity`. -/
structure Band where
  rate : ℚ
  lo : ℚ
  upTo : Option ℚ
deriving DecidableEq

/-- The `single` entry of `ORDINARY_BRACKETS_2025` (script.js line 16). -/
def singleBrackets : List Band :=
  [ { rate := 0.10, lo := 0,      upTo := some 11925 },
    { rate := 0.12, lo := 11925,  upTo := some 48475 },
    { rate := 0.22, lo := 48475,  upTo := some 103350 },
    { rate := 0.24, lo := 103350, upTo := some 197300 },
    { rate := 0.32, lo := 197300, upTo := some 250525 },
    { rate := 0.35, lo := 250525, upTo := some 626350 },
    { rate := 0.37, lo := 626350, upTo := none } ]

/-- `ORDINARY_BRACKETS_2025` (script.js line 15): only `single` is
populated; `mfj`, `hoh`, `mfs` are `null`, modelled as `none`. -/
def ORDINARY_BRACKETS_2025 : FilingStatus → Option (List Band)
  | .single => some singleBrackets
  | .mfj => none
  | .hoh => none
  | .mfs => none

/-- `Math.min(x, b.to)` where `b.to` may be the source's `Infinity`
(`none`): `min(x, ∞) = x`. -/
def minTo (x : ℚ) : Option ℚ → ℚ
  | none => x
  | some t => min x t

/-- One row pushed by the loop of `calcOrdinaryTax` (script.js line 68). -/
structure BracketRow where
  label : String
  taxedAmount : ℚ
  rate : ℚ
  tax : ℚ
deriving DecidableEq

/-- The row built for band `b` at input `x` inside the loop of
`calcOrdinaryTax` (script.js lines 65-73).  `Math.round` is JavaScript
round-half-up, which is Mathlib's `round`. -/
def bandRow (x : ℚ) (b : Band) : BracketRow :=
  { label := toString (round (b.rate * 100)) ++ "%",
    taxedAmount := clampNonNeg (minTo x b.upTo - b.lo),
    rate := b.rate,
    tax := clampNonNeg (minTo x b.upTo - b.lo) * b.rate }

/-- The `{ tax, rows }` object returned by `calcOrdinaryTax`. -/
structure OrdinaryResult where
  tax : ℚ
  rows : List BracketRow
deriving DecidableEq

/-- `function calcOrdinaryTax(taxableOrdinary, status)` (script.js lines
59-79).  `ORDINARY_BRACKETS_2025[status] || ORDINARY_BRACKETS_2025.single`
becomes `Option.getD`; the loop becomes a map (rows, pushed in band order)
and a left fold (`tax += bracketTax`). -/
def calcOrdinaryTax (taxableOrdinary : ℚ) (status : FilingStatus) : OrdinaryResult :=
  let brackets := (ORDINARY_BRACKETS_2025 status).getD singleBrackets
  let rows := brackets.map (bandRow taxableOrdinary)
  { tax := rows.foldl (fun acc r => acc + r.tax) 0, rows := rows }

/-- One entry of `LTCG_2025` (script.js line 32). -/
structure LtcgThresholds where
  r0_to : ℚ
  r15_to : ℚ
deriving DecidableEq

/-- `LTCG_2025` (script.js line 32): all four keys populated, so the
`|| LTCG_2025.single` fallback in `calcLtcgTax` is unreachable and the
table is a total lookup. -/
def LTCG_2025 : FilingStatus → LtcgThresholds
  | .single => { r0_to := 48350, r15_to := 533400 }
  | .mfj => { r0_to := 96700, r15_to := 600050 }
  | .hoh => { r0_to := 64750, r15_to := 566700 }
  | .mfs => { r0_to := 48350, r15_to := 300000 }

/-- One row pushed by `calcLtcgTax` (script.js lines 101-103). -/
structure LtcgRow where
  rate : ℚ
  amount : ℚ
  tax : ℚ
deriving DecidableEq

/-- The `{ tax, rows }` object returned by `calcLtcgTax`. -/
structure LtcgResult where
  tax : ℚ
  rows : List LtcgRow
deriving DecidableEq

/-- The amount of the 0% row (`rows[0].amount`, script.js line 101). -/
def LtcgResult.amountAt0 (r : LtcgResult) : ℚ :=
  (r.rows.getD 0 { rate := 0, amount := 0, tax := 0 }).amount

/-- The amount of the 15% row (`rows[1].amount`, script.js line 102). -/
def LtcgResult.amountAt15 (r : LtcgResult) : ℚ :=
  (r.rows.getD 1 { rate := 0, amount := 0, tax := 0 }).amount

/-- The amount of the 20% row (`rows[2].amount`, script.js line 103). -/
def LtcgResult.amountAt20 (r : LtcgResult) : ℚ :=
  (r.rows.getD 2 { rate := 0, amount := 0, tax := 0 }).amount

/-- The body of `calcLtcgTax` after the threshold lookup
`const t = LTCG_2025[status] || LTCG_2025.single` (script.js lines 83-106),
parametrised by the looked-up thresholds `t`. -/
def calcLtcgTaxWith (totalTaxableIncome ltcg : ℚ) (t : LtcgThresholds) : LtcgResult :=
  let ordinaryTaxable := totalTaxableIncome - ltcg
  let room0 := max (t.r0_to - ordinaryTaxable) 0
  let taxedAt0 := min ltcg room0
  let remainingAfter0 := ltcg - taxedAt0
  let start15 := max ordinaryTaxable t.r0_to
  let room15 := max (t.r15_to - start15) 0
  let taxedAt15 := min remainingAfter0 room15
  let taxedAt20 := max (remainingAfter0 - taxedAt15) 0
  { tax := taxedAt15 * 0.15 + taxedAt20 * 0.20,
    rows := [ { rate := 0.00, amount := taxedAt0, tax := 0 },
              { rate := 0.15, amount := taxedAt15, tax := taxedAt15 * 0.15 },
              { rate := 0.20, amount := taxedAt20, tax := taxedAt20 * 0.20 } ] }

/-- `function calcLtcgTax(totalTaxableIncome, ltcg, status)` (script.js
lines 81-107). -/
def calcLtcgTax (totalTaxableIncome ltcg : ℚ) (status : FilingStatus) : LtcgResult :=
  calcLtcgTaxWith totalTaxableIncome ltcg (LTCG_2025 status)

/-- The raw inputs `calculate` reads from the DOM (script.js lines
141-153): the selected status and the six numeric fields, each still a raw
`JsNum` before the `n(...)` conversion. -/
structure RawInputs where
  status : FilingStatus
  gross : JsNum
  withheld : JsNum
  k401 : JsNum
  otherDed : JsNum
  stcg : JsNum
  ltcg : JsNum
deriving DecidableEq

/-- Everything `calculate` computes and displays: the derived scalars, the
two component results, whether the negative-wage advisory `setWarn` fired
(script.js lines 160-163), and `ltcgArg`, the second argument passed to
`calcLtcgTax` at script.js line 174. -/
structure CalcResult where
  deductionVal : ℚ
  adjustedW2 : ℚ
  totalIncome : ℚ
  taxableIncome : ℚ
  taxableOrdinary : ℚ
  ordinary : OrdinaryResult
  ltcgArg : ℚ
  capgains : LtcgResult
  totalTax : ℚ
  refund : ℚ
  wageWarning : Bool
deriving DecidableEq

/-- `function calculate()` (script.js lines 140-205), with the DOM reads
replaced by the fields of `RawInputs` and the DOM writes by the fields of
`CalcResult`. -/
def calculate (inp : RawInputs) : CalcResult :=
  let deductionVal := STD_DEDUCTION_2025 inp.status
  let gross := n inp.gross
  let withheld := n inp.withheld
  let k401 := n inp.k401
  let otherDed := n inp.otherDed
  let stcg := n inp.stcg
  let ltcg := n inp.ltcg
  let adjustedW2raw := gross - k401 - otherDed
  let adjustedW2 := if adjustedW2raw < 0 then 0 else adjustedW2raw
  let totalIncome := adjustedW2 + stcg + ltcg
  let taxableIncome := clampNonNeg (totalIncome - deductionVal)
  let taxableOrdinary := clampNonNeg (taxableIncome - ltcg)
  let ordinary := calcOrdinaryTax taxableOrdinary inp.status
  let capgains := calcLtcgTax taxableIncome ltcg inp.status
  let totalTax := ordinary.tax + capgains.tax
  { deductionVal := deductionVal,
    adjustedW2 := adjustedW2,
    totalIncome := totalIncome,
    taxableIncome := taxableIncome,
    taxableOrdinary := taxableOrdinary,
    ordinary := ordinary,
    ltcgArg := ltcg,
    capgains := capgains,
    totalTax := totalTax,
    refund := withheld - totalTax,
    wageWarning := decide (adjustedW2raw < 0) }

/-- The raw inputs with every numeric field replaced by the finite number
`n` extracts from it; `calculate` cannot distinguish the two. -/
def normalizeInputs (inp : RawInputs) : RawInputs :=
  { status := inp.status,
    gross := .finite (n inp.gross),
    withheld := .finite (n inp.withheld),
    k401 := .finite (n inp.k401),
    otherDed := .finite (n inp.otherDed),
    stcg := .finite (n inp.stcg),
    ltcg := .finite (n inp.ltcg) }

/-- The single-filer inputs of end-to-end example 1: gross 80000, withheld
9000, everything else 0. -/
def ex1Inputs : RawInputs :=
  { status := .single, gross := .finite 80000, withheld := .finite 9000,
    k401 := .finite 0, otherDed := .finite 0, stcg := .finite 0, ltcg := .finite 0 }

/-- Inputs whose only income is 100 of long-term gains: the standard
deduction absorbs all of it, so `taxableIncome = 0 < ltcg`. -/
def ltcgOnlyInputs : RawInputs :=
  { status := .single, gross := .finite 0, withheld := .finite 0,
    k401 := .finite 0, otherDed := .finite 0, stcg := .finite 0, ltcg := .finite 100 }

/-- Inputs with a negative long-term-gains entry next to large wages. -/
def negLtcgInputs : RawInputs :=
  { status := .single, gross := .finite 100000, withheld := .finite 0,
    k401 := .finite 0, otherDed := .finite 0, stcg := .finite 0, ltcg := .finite (-100) }

/-- Inputs with wages 80000 and long-term gains 100, used as a concrete
instance where the stacker precondition does hold. -/
def stackOkInputs : RawInputs :=
  { status := .single, gross := .finite 80000, withheld := .finite 0,
    k401 := .finite 0, otherDed := .finite 0, stcg := .finite 0, ltcg := .finite 100 }

/-- Accumulating `tax += r.tax` over the rows is the sum of the row taxes. -/
theorem foldl_add_tax (l : List BracketRow) (c : ℚ) :
    l.foldl (fun acc r => acc + r.tax) c = c + (l.map (fun r => r.tax)).sum := by
  induction l generalizing c with
  | nil => simp
  | cons a tl ih => simp [ih]; ring

/-- Every rate of the single bracket table is non-negative. -/
theorem singleBrackets_rates_nonneg : ∀ b ∈ singleBrackets, 0 ≤ b.rate := by
  norm_num [singleBrackets]

/-- The per-band tax of `calcOrdinaryTax` is monotone in the input when the
band's rate is non-negative. -/
theorem bandRow_tax_mono {x1 x2 : ℚ} (b : Band) (hr : 0 ≤ b.rate) (h : x1 ≤ x2) :
    (bandRow x1 b).tax ≤ (bandRow x2 b).tax := by
  have hm : minTo x1 b.upTo ≤ minTo x2 b.upTo := by
    cases b.upTo with
    | none => simpa [minTo] using h
    | some t => exact min_le_min h le_rfl
  simp only [bandRow, clampNonNeg]
  exact mul_le_mul_of_nonneg_right (max_le_max (sub_le_sub_right hm _) le_rfl) hr

/-- The three LTCG amounts of `calcLtcgTaxWith` are non-negative and sum to
the gains input, for every total taxable income and every threshold pair. -/
theorem calcLtcgTaxWith_amounts (tti ltcg : ℚ) (t : LtcgThresholds) (hl : 0 ≤ ltcg) :
    0 ≤ (calcLtcgTaxWith tti ltcg t).amountAt0 ∧
    0 ≤ (calcLtcgTaxWith tti ltcg t).amountAt15 ∧
    0 ≤ (calcLtcgTaxWith tti ltcg t).amountAt20 ∧
    (calcLtcgTaxWith tti ltcg t).amountAt0 + (calcLtcgTaxWith tti ltcg t).amountAt15
      + (calcLtcgTaxWith tti ltcg t).amountAt20 = ltcg := by
  have e0 : (calcLtcgTaxWith tti ltcg t).amountAt0
      = min ltcg (max (t.r0_to - (tti - ltcg)) 0) := rfl
  have e15 : (calcLtcgTaxWith tti ltcg t).amountAt15
      = min (ltcg - min ltcg (max (t.r0_to - (tti - ltcg)) 0))
          (max (t.r15_to - max (tti - ltcg) t.r0_to) 0) := rfl
  have e20 : (calcLtcgTaxWith tti ltcg t).amountAt20
      = max ((ltcg - min ltcg (max (t.r0_to - (tti - ltcg)) 0))
              - min (ltcg - min ltcg (max (t.r0_to - (tti - ltcg)) 0))
                  (max (t.r15_to - max (tti - ltcg) t.r0_to) 0)) 0 := rfl
  rw [e0, e15, e20]
  have h0 : 0 ≤ min ltcg (max (t.r0_to - (tti - ltcg)) 0) :=
    le_min hl (le_max_right _ _)
  have h0le : min ltcg (max (t.r0_to - (tti - ltcg)) 0) ≤ ltcg := min_le_left _ _
  have hrem : 0 ≤ ltcg - min ltcg (max (t.r0_to - (tti - ltcg)) 0) :=
    sub_nonneg.2 h0le
  have h15 : 0 ≤ min (ltcg - min ltcg (max (t.r0_to - (tti - ltcg)) 0))
      (max (t.r15_to - max (tti - ltcg) t.r0_to) 0) :=
    le_min hrem (le_max_right _ _)
  have h15le : min (ltcg - min ltcg (max (t.r0_to - (tti - ltcg)) 0))
      (max (t.r15_to - max (tti - ltcg) t.r0_to) 0)
      ≤ ltcg - min ltcg (max (t.r0_to - (tti - ltcg)) 0) := min_le_left _ _
  refine ⟨h0, h15, le_max_right _ _, ?_⟩
  rw [max_eq_left (sub_nonneg.2 h15le)]
  ring

/-- C1: for every taxable ordinary income `x ≥ 0` and the single-status
bracket table, `calcOrdinaryTax` produces one row per band in ascending
band order (zero-amount bands included), each row's taxed amount is
`max 0 (min x band.to - band.from)`, each row's tax is that amount times
the band's rate, and the returned total is the sum of the per-row taxes. -/
theorem calcOrdinaryTax_apportions_single (x : ℚ) (hx : 0 ≤ x) :
    (calcOrdinaryTax x .single).rows.length = singleBrackets.length ∧
    List.Chain' (fun a b => a.lo < b.lo) singleBrackets ∧
    (calcOrdinaryTax x .single).rows.map (fun r => r.taxedAmount)
      = singleBrackets.map (fun b => max 0 (minTo x b.upTo - b.lo)) ∧
    (calcOrdinaryTax x .single).rows.map (fun r => r.tax)
      = singleBrackets.map (fun b => max 0 (minTo x b.upTo - b.lo) * b.rate) ∧
    (calcOrdinaryTax x .single).tax
      = ((calcOrdinaryTax x .single).rows.map (fun r => r.tax)).sum := by
  refine ⟨?_, ?_, ?_, ?_, ?_⟩
  · simp [calcOrdinaryTax, ORDINARY_BRACKETS_2025]
  · norm_num [singleBrackets, List.chain'_cons, List.chain'_singleton]
  · simp [calcOrdinaryTax, ORDINARY_BRACKETS_2025, bandRow, clampNonNeg, max_comm]
  · simp [calcOrdinaryTax, ORDINARY_BRACKETS_2025, bandRow, clampNonNeg, max_comm]
  · simp [calcOrdinaryTax, foldl_add_tax]

/-- C1 witness at `x = 3`. -/
theorem calcOrdinaryTax_apportions_single_witness :
    0 ≤ (3 : ℚ) ∧
    ((calcOrdinaryTax 3 .single).rows.length = singleBrackets.length ∧
     List.Chain' (fun a b => a.lo < b.lo) singleBrackets ∧
     (calcOrdinaryTax 3 .single).rows.map (fun r => r.taxedAmount)
       = singleBrackets.map (fun b => max 0 (minTo 3 b.upTo - b.lo)) ∧
     (calcOrdinaryTax 3 .single).rows.map (fun r => r.tax)
       = singleBrackets.map (fun b => max 0 (minTo 3 b.upTo - b.lo) * b.rate) ∧
     (calcOrdinaryTax 3 .single).tax
       = ((calcOrdinaryTax 3 .single).rows.map (fun r => r.tax)).sum) :=
  ⟨by norm_num, calcOrdinaryTax_apportions_single 3 (by norm_num)⟩

/-- C2: for every valid input to the capital-gains stacker
(`0 ≤ tti`, `0 ≤ ltcg ≤ tti`, thresholds with `r0_to ≤ r15_to`), the three
computed amounts are each non-negative and sum exactly to `ltcg`. -/
theorem calcLtcgTaxWith_conserves (tti ltcg : ℚ) (t : LtcgThresholds)
    (h1 : 0 ≤ tti) (h2 : 0 ≤ ltcg) (h3 : ltcg ≤ tti) (h4 : t.r0_to ≤ t.r15_to) :
    0 ≤ (calcLtcgTaxWith tti ltcg t).amountAt0 ∧
    0 ≤ (calcLtcgTaxWith tti ltcg t).amountAt15 ∧
    0 ≤ (calcLtcgTaxWith tti ltcg t).amountAt20 ∧
    (calcLtcgTaxWith tti ltcg t).amountAt0 + (calcLtcgTaxWith tti ltcg t).amountAt15
      + (calcLtcgTaxWith tti ltcg t).amountAt20 = ltcg :=
  calcLtcgTaxWith_amounts tti ltcg t h2

/-- C2 witness at the example-3 numbers with the single-status thresholds. -/
theorem calcLtcgTaxWith_conserves_witness :
    (0 ≤ (600000 : ℚ) ∧ 0 ≤ (500000 : ℚ) ∧ (500000 : ℚ) ≤ 600000 ∧
      (LtcgThresholds.mk 48350 533400).r0_to ≤ (LtcgThresholds.mk 48350 533400).r15_to) ∧
    (0 ≤ (calcLtcgTaxWith 600000 500000 (LtcgThresholds.mk 48350 533400)).amountAt0 ∧
     0 ≤ (calcLtcgTaxWith 600000 500000 (LtcgThresholds.mk 48350 533400)).amountAt15 ∧
     0 ≤ (calcLtcgTaxWith 600000 500000 (LtcgThresholds.mk 48350 533400)).amountAt20 ∧
     (calcLtcgTaxWith 600000 500000 (LtcgThresholds.mk 48350 533400)).amountAt0
       + (calcLtcgTaxWith 600000 500000 (LtcgThresholds.mk 48350 533400)).amountAt15
       + (calcLtcgTaxWith 600000 500000 (LtcgThresholds.mk 48350 533400)).amountAt20
       = 500000) :=
  ⟨⟨by norm_num, by norm_num, by norm_num, by norm_num⟩,
    calcLtcgTaxWith_conserves 600000 500000 (LtcgThresholds.mk 48350 533400)
      (by norm_num) (by norm_num) (by norm_num) (by norm_num)⟩

/-- C3 counterexample: with no income except 100 of long-term gains, the
standard deduction drives `taxableIncome` to 0, yet `calculate` still
passes the full `ltcg = 100` to the stacker, violating the claimed
precondition `ltcgArg ≤ totalTaxableIncome`. -/
theorem calculate_breaks_stacker_precondition :
    (calculate ltcgOnlyInputs).ltcgArg = 100 ∧
    (calculate ltcgOnlyInputs).taxableIncome = 0 ∧
    ¬ (calculate ltcgOnlyInputs).ltcgArg ≤ (calculate ltcgOnlyInputs).taxableIncome := by
  refine ⟨rfl, ?_, ?_⟩ <;>
    norm_num [calculate, ltcgOnlyInputs, n, STD_DEDUCTION_2025, clampNonNeg,
      min_def, max_def]

/-- C3 amended: `calculate` always passes `taxableIncome ≥ 0` and
`ltcgArg = n ltcg` to the stacker, and the precondition
`0 ≤ ltcgArg ≤ totalTaxableIncome` holds whenever the gains entry is
non-negative and does not exceed `totalIncome - deduction`; it can fail
when the deduction absorbs the income (see the counterexample). -/
theorem calculate_stacker_args (inp : RawInputs)
    (h0 : 0 ≤ n inp.ltcg)
    (h1 : n inp.ltcg ≤ (calculate inp).totalIncome - (calculate inp).deductionVal) :
    0 ≤ (calculate inp).ltcgArg ∧
    (calculate inp).ltcgArg ≤ (calculate inp).taxableIncome ∧
    0 ≤ (calculate inp).taxableIncome ∧
    (calculate inp).capgains
      = calcLtcgTax (calculate inp).taxableIncome (calculate inp).ltcgArg inp.status := by
  have e1 : (calculate inp).ltcgArg = n inp.ltcg := rfl
  have e2 : (calculate inp).taxableIncome
      = max ((calculate inp).totalIncome - (calculate inp).deductionVal) 0 := rfl
  refine ⟨by rw [e1]; exact h0, ?_, ?_, rfl⟩
  · rw [e1, e2]
    exact le_trans h1 (le_max_left _ _)
  · rw [e2]
    exact le_max_right _ _

/-- C3 amended witness: wages 80000 and gains 100 satisfy the side
conditions, so the stacker precondition holds there. -/
theorem calculate_stacker_args_witness :
    (0 ≤ n stackOkInputs.ltcg ∧
      n stackOkInputs.ltcg
        ≤ (calculate stackOkInputs).totalIncome - (calculate stackOkInputs).deductionVal) ∧
    (0 ≤ (calculate stackOkInputs).ltcgArg ∧
     (calculate stackOkInputs).ltcgArg ≤ (calculate stackOkInputs).taxableIncome ∧
     0 ≤ (calculate stackOkInputs).taxableIncome ∧
     (calculate stackOkInputs).capgains
       = calcLtcgTax (calculate stackOkInputs).taxableIncome
           (calculate stackOkInputs).ltcgArg stackOkInputs.status) :=
  ⟨⟨by norm_num [stackOkInputs, n],
    by norm_num [calculate, stackOkInputs, n, STD_DEDUCTION_2025, clampNonNeg,
      min_def, max_def]⟩,
   calculate_stacker_args stackOkInputs (by norm_num [stackOkInputs, n])
     (by norm_num [calculate, stackOkInputs, n, STD_DEDUCTION_2025, clampNonNeg,
       min_def, max_def])⟩

/-- C4 counterexample: `calculate` does not clamp a negative long-term
gains entry: with `ltcg = -100` the stacker receives `-100 < 0`. -/
theorem calculate_passes_negative_ltcg :
    (calculate negLtcgInputs).ltcgArg = -100 ∧
    (calculate negLtcgInputs).ltcgArg < 0 ∧
    (calculate negLtcgInputs).capgains
      = calcLtcgTax (calculate negLtcgInputs).taxableIncome (-100) .single := by
  refine ⟨rfl, by norm_num [calculate, negLtcgInputs, n], rfl⟩

/-- C4 amended: the orchestration clamps only the combined wage income
`gross - 401k - otherDed` (with the advisory flag set exactly when that
difference was negative) and the derived `taxableIncome` and
`taxableOrdinary`; the individual entries, in particular the gains, are
passed through unclamped (`ltcgArg = n ltcg`). -/
theorem calculate_clamps_only_wages (inp : RawInputs) :
    0 ≤ (calculate inp).adjustedW2 ∧
    ((calculate inp).wageWarning = true ↔
      n inp.gross - n inp.k401 - n inp.otherDed < 0) ∧
    0 ≤ (calculate inp).taxableIncome ∧
    0 ≤ (calculate inp).taxableOrdinary ∧
    (calculate inp).ltcgArg = n inp.ltcg := by
  have e1 : (calculate inp).adjustedW2
      = if n inp.gross - n inp.k401 - n inp.otherDed < 0 then 0
        else n inp.gross - n inp.k401 - n inp.otherDed := rfl
  have e2 : (calculate inp).wageWarning
      = decide (n inp.gross - n inp.k401 - n inp.otherDed < 0) := rfl
  have e3 : (calculate inp).taxableIncome
      = max ((calculate inp).totalIncome - (calculate inp).deductionVal) 0 := rfl
  have e4 : (calculate inp).taxableOrdinary
      = max ((calculate inp).taxableIncome - n inp.ltcg) 0 := rfl
  refine ⟨?_, ?_, ?_, ?_, rfl⟩
  · rw [e1]
    split
    · exact le_refl 0
    · exact le_of_not_lt (by assumption)
  · rw [e2]
    exact decide_eq_true_iff
  · rw [e3]
    exact le_max_right _ _
  · rw [e4]
    exact le_max_right _ _

/-- C5: on the example-3 inputs (total taxable income 600000, gains 500000,
single status), `calcLtcgTax` puts 0 at 0%, 433400 at 15%, 66600 at 20%,
and returns total tax 78330. -/
theorem calcLtcgTax_example3 :
    (calcLtcgTax 600000 500000 .single).amountAt0 = 0 ∧
    (calcLtcgTax 600000 500000 .single).amountAt15 = 433400 ∧
    (calcLtcgTax 600000 500000 .single).amountAt20 = 66600 ∧
    (calcLtcgTax 600000 500000 .single).tax = 78330 := by
  norm_num [calcLtcgTax, calcLtcgTaxWith, LTCG_2025, LtcgResult.amountAt0,
    LtcgResult.amountAt15, LtcgResult.amountAt20, List.getD, min_def, max_def]

/-- C6: the total ordinary tax is monotone in the taxable income, for every
filing status (they all resolve to the same bracket table). -/
theorem calcOrdinaryTax_tax_mono (s : FilingStatus) (x1 x2 : ℚ)
    (h0 : 0 ≤ x1) (h : x1 ≤ x2) :
    (calcOrdinaryTax x1 s).tax ≤ (calcOrdinaryTax x2 s).tax := by
  have hb : ∀ b ∈ (ORDINARY_BRACKETS_2025 s).getD singleBrackets, 0 ≤ b.rate := by
    cases s <;> simpa [ORDINARY_BRACKETS_2025] using singleBrackets_rates_nonneg
  simp only [calcOrdinaryTax, foldl_add_tax, zero_add, List.map_map]
  exact List.sum_le_sum fun b hbm => bandRow_tax_mono b (hb b hbm) h

/-- C6 witness at `x1 = 3`, `x2 = 5`, single status. -/
theorem calcOrdinaryTax_tax_mono_witness :
    (0 ≤ (3 : ℚ) ∧ (3 : ℚ) ≤ 5) ∧
    (calcOrdinaryTax 3 .single).tax ≤ (calcOrdinaryTax 5 .single).tax :=
  ⟨⟨by norm_num, by norm_num⟩,
    calcOrdinaryTax_tax_mono .single 3 5 (by norm_num) (by norm_num)⟩

/-- C7 counterexample: on the example-1 inputs the ordinary total tax is
exactly 9049, not approximately 9014.50 (the gap is 34.5). -/
theorem calculate_ex1_tax_not_9014 :
    (calculate ex1Inputs).ordinary.tax = 9049 ∧
    (calculate ex1Inputs).ordinary.tax ≠ 9014.5 ∧
    34 < (calculate ex1Inputs).ordinary.tax - 9014.5 := by
  refine ⟨?_, ?_, ?_⟩ <;>
    norm_num [calculate, ex1Inputs, n, STD_DEDUCTION_2025, clampNonNeg,
      calcOrdinaryTax, ORDINARY_BRACKETS_2025, singleBrackets, bandRow, minTo,
      min_def, max_def]

/-- C7 amended: on the example-1 inputs, `calculate` derives
adjustedW2 = 80000, totalIncome = 80000, taxableIncome = 64250,
taxableOrdinary = 64250, ordinary total tax exactly 9049
(= 1192.5 + 4386 + 3470.5), total tax 9049, and
refund = withheld - totalTax = -49. -/
theorem calculate_ex1_end_to_end :
    (calculate ex1Inputs).adjustedW2 = 80000 ∧
    (calculate ex1Inputs).totalIncome = 80000 ∧
    (calculate ex1Inputs).taxableIncome = 64250 ∧
    (calculate ex1Inputs).taxableOrdinary = 64250 ∧
    (calculate ex1Inputs).ordinary.tax = 9049 ∧
    (calculate ex1Inputs).totalTax = 9049 ∧
    (calculate ex1Inputs).refund = n ex1Inputs.withheld - (calculate ex1Inputs).totalTax ∧
    (calculate ex1Inputs).refund = -49 := by
  refine ⟨?_, ?_, ?_, ?_, ?_, ?_, ?_, ?_⟩ <;>
    norm_num [calculate, ex1Inputs, n, STD_DEDUCTION_2025, clampNonNeg,
      calcOrdinaryTax, ORDINARY_BRACKETS_2025, singleBrackets, bandRow, minTo,
      calcLtcgTax, calcLtcgTaxWith, LTCG_2025, min_def, max_def]

/-- C8: for every taxable income, the statuses with no populated bracket
table (mfj, hoh, mfs) produce exactly the single-status result. -/
theorem calcOrdinaryTax_fallback (x : ℚ) :
    calcOrdinaryTax x .mfj = calcOrdinaryTax x .single ∧
    calcOrdinaryTax x .hoh = calcOrdinaryTax x .single ∧
    calcOrdinaryTax x .mfs = calcOrdinaryTax x .single :=
  ⟨rfl, rfl, rfl⟩

/-- C9: without the spec's precondition `ltcg ≤ totalTaxableIncome` — for
every real total taxable income, every status, and every `ltcg ≥ 0` — the
three amounts of `calcLtcgTax` are non-negative and sum exactly to `ltcg`
(the function is total, so it never raises). -/
theorem calcLtcgTax_conserves_unconditionally (tti ltcg : ℚ) (s : FilingStatus)
    (hl : 0 ≤ ltcg) :
    0 ≤ (calcLtcgTax tti ltcg s).amountAt0 ∧
    0 ≤ (calcLtcgTax tti ltcg s).amountAt15 ∧
    0 ≤ (calcLtcgTax tti ltcg s).amountAt20 ∧
    (calcLtcgTax tti ltcg s).amountAt0 + (calcLtcgTax tti ltcg s).amountAt15
      + (calcLtcgTax tti ltcg s).amountAt20 = ltcg :=
  calcLtcgTaxWith_amounts tti ltcg (LTCG_2025 s) hl

/-- C9 witness at `tti = -50 < ltcg = 100` (ordinaryTaxable is negative). -/
theorem calcLtcgTax_conserves_unconditionally_witness :
    0 ≤ (100 : ℚ) ∧
    (0 ≤ (calcLtcgTax (-50) 100 .single).amountAt0 ∧
     0 ≤ (calcLtcgTax (-50) 100 .single).amountAt15 ∧
     0 ≤ (calcLtcgTax (-50) 100 .single).amountAt20 ∧
     (calcLtcgTax (-50) 100 .single).amountAt0 + (calcLtcgTax (-50) 100 .single).amountAt15
       + (calcLtcgTax (-50) 100 .single).amountAt20 = 100) :=
  ⟨by norm_num, calcLtcgTax_conserves_unconditionally (-50) 100 .single (by norm_num)⟩

/-- C10: the input-reading helper `n` maps every non-finite conversion
result to 0, and `calculate` cannot distinguish raw inputs from their
`n`-normalised finite forms, so non-numeric entries flow in as zero. -/
theorem n_total_on_nonfinite (v : JsNum) (h : JsNum.isFinite v = false) :
    n v = 0 ∧ ∀ inp : RawInputs, calculate inp = calculate (normalizeInputs inp) := by
  refine ⟨?_, fun inp => rfl⟩
  cases v with
  | finite q => simp [JsNum.isFinite] at h
  | nan => rfl
  | posInf => rfl
  | negInf => rfl

/-- C10 witness at `v = NaN`. -/
theorem n_total_on_nonfinite_witness :
    JsNum.isFinite .nan = false ∧
    (n .nan = 0 ∧ ∀ inp : RawInputs, calculate inp = calculate (normalizeInputs inp)) :=
  ⟨rfl, n_total_on_nonfinite .nan rfl⟩

end TaxCalc
